import Mathlib

/-!
Verification development for the Freshdesk ticket monitor (src/main.py).

The Python module is embedded shallowly:
  - network outcomes (transport errors, HTTP status errors) and the
    per-ticket PUT outcome are abstracted by explicit outcome parameters,
    since they are decided outside the repository;
  - module-level configuration constants are embedded with the exact
    values they have in the source (FRESHDESK_API_KEY = "" and
    POLLING_INTERVAL = "" from src/main.py lines 13-14); the name
    `settings` is never bound (the initialization at line 25 is commented
    out), so the dereferences settings.FRESHDESK_DOMAIN at lines 93 and
    112 raise NameError at runtime — embedded as settings_lookup;
  - the global run state (is_monitoring, monitor_task) is an explicit
    state record threaded through the handlers;
  - Python exceptions are values of an error type, raised code paths are
    Except error results, and a try/except block is a match on them.
-/

namespace Freshdesk

/-- Python values as they appear in this module: ints, strings, booleans. -/
inductive PyVal where
  | int (n : Int)
  | str (s : String)
  | bool (b : Bool)
deriving DecidableEq

def PyVal.isInt : PyVal → Bool
  | .int _ => true
  | _ => false

def PyVal.isStr : PyVal → Bool
  | .str _ => true
  | _ => false

/-- src/main.py line 13: the API key constant, an empty string. -/
def FRESHDESK_API_KEY : PyVal := .str ""

/-- src/main.py line 14: the polling interval constant.  In the source it
is the empty string, not an integer (the Settings class that would load an
int, default 300, is commented out). -/
def POLLING_INTERVAL : PyVal := .str ""

/-- The Python exceptions that arise in this module. -/
inductive PyError where
  | keyError (k : String)
  | nameError (missing : String)
  | httpStatusError (code : Nat)
  | transportError
  | cancelledError
  | typeError
deriving DecidableEq

/-- A ticket dict as fetched from the API, projected to the three fields
the module reads.  A missing key is `none`; reading it raises `KeyError`. -/
structure TicketRec where
  id : Option Int
  status : Option Int
  priority : Option Int
deriving DecidableEq

/-- One PUT issued against /api/v2/tickets/\x7bid\x7d: the ticket id and the
JSON body. -/
structure UpdateCall where
  ticket_id : Int
  payload : List (String × Int)
deriving DecidableEq

/-- src/main.py line 25 is commented out, so the module never binds the
name `settings`: evaluating settings.FRESHDESK_DOMAIN raises NameError. -/
def settings_lookup : Except PyError String := .error (.nameError "settings")

/-- update_ticket (src/main.py lines 88-105): first builds the url from
settings.FRESHDESK_DOMAIN (line 93) — with `settings` unbound this raises
NameError before any PUT is issued, and the line sits outside the
function's try, so the error propagates to the caller.  Only if the
lookup succeeded would the PUT be issued, its outcome abstracted by
`updErr` (none = 2xx, some e = the error raise_for_status logs and
re-raises).  Returns the issued calls together with the result surfaced
to the caller. -/
def update_ticket (updErr : Int → Option PyError) (ticket_id : Int)
    (updates : List (String × Int)) : List UpdateCall × Except PyError Unit :=
  match settings_lookup with
  | .error e => ([], .error e)
  | .ok _ =>
    ([⟨ticket_id, updates⟩],
     match updErr ticket_id with
     | none => .ok ()
     | some e => .error e)

/-- The try-block body of process_ticket (src/main.py lines 68-83): read
the id, status and priority keys (KeyError if absent), and when
status == 2 and priority < 3 call update_ticket with payload
priority = 3. -/
def process_ticket_body (updErr : Int → Option PyError) (ticket : TicketRec) :
    List UpdateCall × Except PyError Unit :=
  match ticket.id with
  | none => ([], .error (.keyError "id"))
  | some ticket_id =>
    match ticket.status with
    | none => ([], .error (.keyError "status"))
    | some status =>
      match ticket.priority with
      | none => ([], .error (.keyError "priority"))
      | some priority =>
        if status = 2 ∧ priority < 3 then
          update_ticket updErr ticket_id [("priority", 3)]
        else
          ([], .ok ())

/-- process_ticket (src/main.py lines 63-86): the body wrapped in
try/except Exception, which logs the error and returns normally, so the
caller always gets a normal return. -/
def process_ticket (updErr : Int → Option PyError) (ticket : TicketRec) :
    List UpdateCall × Except PyError Unit :=
  ((process_ticket_body updErr ticket).1, .ok ())

/-- The outcome of the one GET issued by fetch_tickets, decided by the
network and the provider. -/
inductive FetchOutcome where
  | success (body : List TicketRec)
  | transportError
  | httpError (code : Nat)
deriving DecidableEq

/-- The try-block of fetch_tickets: client.get may raise a transport
error, raise_for_status raises on a non-2xx code, otherwise the parsed
body is returned. -/
def fetch_attempt : FetchOutcome → Except PyError (List TicketRec)
  | .success body => .ok body
  | .transportError => .error .transportError
  | .httpError code => .error (.httpStatusError code)

/-- fetch_tickets (src/main.py lines 107-123): first builds the url from
settings.FRESHDESK_DOMAIN (line 112) — with `settings` unbound this
raises NameError, and the line sits outside the try (which starts at
line 117), so the error propagates to the caller on every call.  Only if
the lookup succeeded would the GET run, whose exceptions the try catches,
returning the empty list. -/
def fetch_tickets (o : FetchOutcome) : Except PyError (List TicketRec) :=
  match settings_lookup with
  | .error e => .error e
  | .ok _ =>
    match fetch_attempt o with
    | .ok body => .ok body
    | .error _ => .ok []

/-- The for-loop over the fetched tickets inside monitor_tickets
(src/main.py lines 136-137): process each ticket in order; an exception
raised by process_ticket would abort the loop (into the enclosing
except). -/
def for_each_ticket (updErr : Int → Option PyError) :
    List TicketRec → List UpdateCall × Except PyError Unit
  | [] => ([], .ok ())
  | t :: rest =>
    match process_ticket updErr t with
    | (calls, .error e) => (calls, .error e)
    | (calls, .ok _) =>
      let r := for_each_ticket updErr rest
      (calls ++ r.1, r.2)

/-- asyncio.sleep(delay): completes normally for a numeric delay; for the
module's string value it raises TypeError (a str cannot be compared with
0 nor used as a delay). -/
def asyncio_sleep (delay : PyVal) : Except PyError Unit :=
  match delay with
  | .int _ => .ok ()
  | _ => .error .typeError

/-- The observable effects of one cycle: the PUT calls issued, and the
cycle summary log value (some n means the line logging n processed
tickets was reached; none means the except branch ran instead). -/
structure CycleEffects where
  calls : List UpdateCall
  processedLog : Option Nat
deriving DecidableEq

/-- How one iteration of the while-body ends: the sleep completed and the
while condition is re-checked, or an exception escaped the body and the
task terminates. -/
inductive CycleEnd where
  | next
  | raised (e : PyError)
deriving DecidableEq

/-- The global run state of the module: the is_monitoring flag, the
monitor_task handle, the set of currently active poll-loop tasks (by
handle id), and a counter supplying fresh handles. -/
structure SysState where
  is_monitoring : Bool
  monitor_task : Option Nat
  active : List Nat
  nextId : Nat
deriving DecidableEq

/-- One iteration of the while-body of monitor_tickets (src/main.py lines
131-145): the try block runs fetch_tickets (whose NameError it catches),
the per-ticket for loop and the summary log; except Exception swallows
anything escaping the try; the await asyncio.sleep(POLLING_INTERVAL)
sits outside the try, so an exception it raises escapes the task.  The
body assigns no global, so the run state passes through unchanged. -/
def monitor_cycle (st : SysState) (ival : PyVal) (o : FetchOutcome)
    (updErr : Int → Option PyError) : SysState × CycleEffects × CycleEnd :=
  let eff : CycleEffects :=
    match fetch_tickets o with
    | .error _ => ⟨[], none⟩
    | .ok tickets =>
      let r := for_each_ticket updErr tickets
      match r.2 with
      | .ok _ => ⟨r.1, some tickets.length⟩
      | .error _ => ⟨r.1, none⟩
  match asyncio_sleep ival with
  | .ok _ => (st, eff, .next)
  | .error e => (st, eff, .raised e)

/-- An HTTPException as raised by the handlers: status code and detail. -/
structure HTTPError where
  status_code : Nat
  detail : String
deriving DecidableEq

/-- What a request handler produces: a normal JSON body, an HTTPException
rendered as its status code, or an uncaught exception escaping the
handler. -/
inductive HandlerResult (α : Type) where
  | ok (v : α)
  | httpError (e : HTTPError)
  | crash (e : PyError)
deriving DecidableEq

/-- start_monitoring / POST /start (src/main.py lines 187-199): raise 400
if already running; otherwise set the flag, create the monitor task and
record its handle. -/
def start_monitoring (s : SysState) :
    SysState × HandlerResult (List (String × String)) :=
  if s.is_monitoring then
    (s, .httpError ⟨400, "Monitoring is already running"⟩)
  else
    ({ is_monitoring := true
       monitor_task := some s.nextId
       active := s.nextId :: s.active
       nextId := s.nextId + 1 },
     .ok [("status", "Monitoring started")])

/-- The state of the monitor task at the moment stop() cancels and
awaits it. -/
inductive TaskState where
  | alive
  | finished
  | failed (e : PyError)
deriving DecidableEq

/-- monitor_task.cancel() followed by await monitor_task: a live task
receives the cancellation at its suspension point and the await raises
CancelledError; cancel() on a task that has already completed is a no-op
and the await returns its value or re-raises its stored exception. -/
def await_after_cancel : TaskState → Except PyError Unit
  | .alive => .error .cancelledError
  | .finished => .ok ()
  | .failed e => .error e

/-- stop_monitoring / POST /stop (src/main.py lines 201-219): raise 400
if not running; otherwise set the flag false, and if a task handle is
recorded, cancel the task and await it, catching only CancelledError —
any other exception from the await escapes the handler.  The state
mutations (flag, cancellation) all precede the await, so the resulting
state does not depend on the task's state. -/
def stop_monitoring (ts : TaskState) (s : SysState) :
    SysState × HandlerResult (List (String × String)) :=
  if s.is_monitoring = false then
    (s, .httpError ⟨400, "Monitoring is not running"⟩)
  else
    let s1 : SysState := { s with is_monitoring := false }
    match s1.monitor_task with
    | some t =>
      let s2 : SysState := { s1 with active := s1.active.erase t }
      (s2,
       match await_after_cancel ts with
       | .error .cancelledError => .ok [("status", "Monitoring stopped")]
       | .error e => .crash e
       | .ok _ => .ok [("status", "Monitoring stopped")])
    | none => (s1, .ok [("status", "Monitoring stopped")])

/-- get_status / GET /status (src/main.py lines 176-185): always returns
200 with exactly the three fields, last_check being the isoformat of the
query time. -/
def get_status (s : SysState) (now_iso : String) :
    Nat × List (String × PyVal) :=
  (200,
   [("is_monitoring", .bool s.is_monitoring),
    ("last_check", .str now_iso),
    ("polling_interval", POLLING_INTERVAL)])

/-- startup_event (src/main.py lines 147-157): on application startup, if
not monitoring, set the flag and create the monitor task. -/
def startup_event (s : SysState) : SysState :=
  if s.is_monitoring = false then
    { is_monitoring := true
      monitor_task := some s.nextId
      active := s.nextId :: s.active
      nextId := s.nextId + 1 }
  else s

/-- The module's state before the app runs: flag false, no task. -/
def initState : SysState := ⟨false, none, [], 0⟩

/-- The state right after FastAPI has run the startup hook, before any
request is served. -/
def bootState : SysState := startup_event initState

/-- The lifecycle operations reachability is quantified over; a stop
carries the state the monitor task is in when awaited. -/
inductive LifecycleOp where
  | start
  | stop (ts : TaskState)
deriving DecidableEq

/-- Apply one lifecycle operation to the state (the handler's response is
discarded, only the state transition is kept). -/
def applyOp (s : SysState) : LifecycleOp → SysState
  | .start => (start_monitoring s).1
  | .stop ts => (stop_monitoring ts s).1

/-- Run a sequence of lifecycle operations from a state. -/
def runOps (s : SysState) : List LifecycleOp → SysState
  | [] => s
  | op :: rest => runOps (applyOp s op) rest

/-- The run-state invariant: when monitoring, the recorded handle is the
single active task; when not monitoring, no task is active. -/
def Inv (s : SysState) : Prop :=
  (s.is_monitoring = true → ∃ t, s.monitor_task = some t ∧ s.active = [t]) ∧
  (s.is_monitoring = false → s.active = [])

/- ------------------------------------------------------------------ -/
/- Theorems                                                           -/
/- ------------------------------------------------------------------ -/

theorem process_ticket_snd_ok (updErr : Int → Option PyError) (t : TicketRec) :
    (process_ticket updErr t).2 = Except.ok () := rfl

theorem for_each_ticket_cons (updErr : Int → Option PyError) (t : TicketRec)
    (rest : List TicketRec) :
    for_each_ticket updErr (t :: rest) =
      ((process_ticket updErr t).1 ++ (for_each_ticket updErr rest).1,
       (for_each_ticket updErr rest).2) := by
  simp only [for_each_ticket, process_ticket]

theorem for_each_ticket_snd_ok (updErr : Int → Option PyError) :
    ∀ ts : List TicketRec, (for_each_ticket updErr ts).2 = Except.ok ()
  | [] => rfl
  | t :: rest => by
    rw [for_each_ticket_cons]
    exact for_each_ticket_snd_ok updErr rest

theorem update_ticket_no_put (updErr : Int → Option PyError) (i : Int)
    (updates : List (String × Int)) :
    update_ticket updErr i updates = ([], .error (.nameError "settings")) := rfl

theorem process_ticket_calls_nil (updErr : Int → Option PyError)
    (t : TicketRec) : (process_ticket updErr t).1 = [] := by
  obtain ⟨oi, os, op⟩ := t
  cases oi <;> cases os <;> cases op <;>
    simp [process_ticket, process_ticket_body, update_ticket,
      settings_lookup, apply_ite]

theorem for_each_ticket_calls_nil (updErr : Int → Option PyError) :
    ∀ ts : List TicketRec, (for_each_ticket updErr ts).1 = []
  | [] => rfl
  | t :: rest => by
    rw [for_each_ticket_cons, process_ticket_calls_nil,
      for_each_ticket_calls_nil updErr rest]
    rfl

/-- Claim C1 (evaluation of the shipped code): no update call is ever
issued.  update_ticket dereferences the unbound name settings at the url
construction, before the PUT, so it raises NameError having issued
nothing; process_ticket swallows the error.  Hence every ticket —
matching or not — produces zero calls, and the claim's two-ticket
scenario produces zero calls instead of the one the claim requires. -/
theorem no_update_call_ever :
    update_ticket (fun _ => none) 1 [("priority", 3)] =
      ([], .error (.nameError "settings")) ∧
    (∀ (updErr : Int → Option PyError) (t : TicketRec),
      (process_ticket updErr t).1 = []) ∧
    (for_each_ticket (fun _ => none)
        [⟨some 1, some 2, some 1⟩, ⟨some 2, some 1, some 1⟩]).1 = [] :=
  ⟨rfl, process_ticket_calls_nil, for_each_ticket_calls_nil _ _⟩

/-- Claim C5: per-ticket evaluation returns normally on every input, and
an input missing any of the id, status or priority fields is treated as
no match: no update call is issued and no error reaches the caller. -/
theorem malformed_ticket_skipped (updErr : Int → Option PyError)
    (t : TicketRec)
    (h : t.id = none ∨ t.status = none ∨ t.priority = none) :
    (process_ticket updErr t).2 = Except.ok () ∧
    process_ticket updErr t = ([], Except.ok ()) := by
  refine ⟨rfl, ?_⟩
  obtain ⟨oi, os, op⟩ := t
  rcases h with h | h | h <;> simp_all [process_ticket, process_ticket_body] <;>
    cases oi <;> cases os <;> simp_all [process_ticket, process_ticket_body]

theorem malformed_ticket_skipped_witness :
    (process_ticket (fun _ => none) ⟨some 1, none, some 1⟩).2 = Except.ok () ∧
    process_ticket (fun _ => none) ⟨some 1, none, some 1⟩ = ([], Except.ok ()) :=
  malformed_ticket_skipped (fun _ => none) ⟨some 1, none, some 1⟩
    (Or.inr (Or.inl rfl))

/-- Claim C4 (evaluation of the shipped code): only the containment half
of the claim is true.  The per-ticket for loop does survive any ticket
and reach every later one (no error escapes it), but no ticket — the
failed one or any matching subsequent one — ever gets an update call
issued: update_ticket raises NameError before the PUT, so the whole
cycle issues zero calls, where the claim requires the subsequent
matching tickets' calls to be made. -/
theorem no_updates_but_loop_continues :
    (∀ (updErr : Int → Option PyError) (ts : List TicketRec),
      (for_each_ticket updErr ts).2 = Except.ok () ∧
      (for_each_ticket updErr ts).1 = []) ∧
    for_each_ticket (fun _ => none)
        [⟨some 5, some 2, some 2⟩, ⟨some 1, some 2, some 1⟩,
         ⟨some 7, some 2, some 1⟩] =
      ([], Except.ok ()) :=
  ⟨fun updErr ts =>
      ⟨for_each_ticket_snd_ok updErr ts, for_each_ticket_calls_nil updErr ts⟩,
   by rfl⟩

/-- Claim C3 (evaluation of the shipped code): fetch_tickets never
returns the empty list to its caller — it raises NameError on every call
(the url construction at line 112 dereferences the unbound settings
outside the try), whatever the network outcome; the loop's except then
catches it, so the cycle issues no calls and never reaches the summary
log, and at the shipped POLLING_INTERVAL the cycle ends with the sleep's
TypeError terminating the task instead of the loop staying RUNNING. -/
theorem fetch_raises_nameerror :
    (∀ o : FetchOutcome, fetch_tickets o = .error (.nameError "settings")) ∧
    monitor_cycle bootState POLLING_INTERVAL .transportError (fun _ => none) =
      (bootState, ⟨[], none⟩, .raised .typeError) :=
  ⟨fun _ => rfl, rfl⟩

theorem Inv_applyOp {s : SysState} (h : Inv s) (op : LifecycleOp) :
    Inv (applyOp s op) := by
  obtain ⟨hT, hF⟩ := h
  cases op with
  | start =>
    cases hm : s.is_monitoring with
    | true =>
      have hs : applyOp s .start = s := by
        simp [applyOp, start_monitoring, hm]
      rw [hs]
      exact ⟨hT, hF⟩
    | false =>
      have ha : s.active = [] := hF hm
      have hs : applyOp s .start =
          ⟨true, some s.nextId, s.nextId :: s.active, s.nextId + 1⟩ := by
        simp [applyOp, start_monitoring, hm]
      rw [hs]
      exact ⟨fun _ => ⟨s.nextId, rfl, by rw [ha]⟩, fun hc => by simp_all⟩
  | stop ts =>
    cases hm : s.is_monitoring with
    | false =>
      have hs : applyOp s (.stop ts) = s := by
        simp [applyOp, stop_monitoring, hm]
      rw [hs]
      exact ⟨hT, hF⟩
    | true =>
      obtain ⟨t, hmt, ha⟩ := hT hm
      have hs : applyOp s (.stop ts) =
          ⟨false, s.monitor_task, s.active.erase t, s.nextId⟩ := by
        simp [applyOp, stop_monitoring, hm, hmt]
      rw [hs]
      refine ⟨fun hc => by simp_all, fun _ => ?_⟩
      rw [ha]
      simp

theorem Inv_runOps {s : SysState} (h : Inv s) :
    ∀ ops : List LifecycleOp, Inv (runOps s ops)
  | [] => h
  | op :: rest => Inv_runOps (Inv_applyOp h op) rest

theorem Inv_active_le_one {s : SysState} (h : Inv s) : s.active.length ≤ 1 := by
  obtain ⟨hT, hF⟩ := h
  cases hm : s.is_monitoring with
  | false => rw [hF hm]; simp
  | true => obtain ⟨t, _, ha⟩ := hT hm; rw [ha]; simp

theorem Inv_initState : Inv initState :=
  ⟨fun hc => by simp [initState] at hc, fun _ => rfl⟩

theorem Inv_bootState : Inv bootState :=
  ⟨fun _ => ⟨0, rfl, rfl⟩, fun hc => by simp [bootState, startup_event, initState] at hc⟩

/-- Claim C2: along every sequence of start and stop operations, from the
fresh module state as well as from the post-startup state, at most one
poll-loop task is active; and a start issued while the running flag is
true fails with the 400 already-running error, spawning nothing and
leaving the run state unchanged. -/
theorem at_most_one_poll_task :
    (∀ ops : List LifecycleOp, (runOps initState ops).active.length ≤ 1) ∧
    (∀ ops : List LifecycleOp, (runOps bootState ops).active.length ≤ 1) ∧
    (∀ s : SysState, s.is_monitoring = true →
      start_monitoring s =
        (s, .httpError ⟨400, "Monitoring is already running"⟩)) := by
  refine ⟨fun ops => Inv_active_le_one (Inv_runOps Inv_initState ops),
          fun ops => Inv_active_le_one (Inv_runOps Inv_bootState ops),
          fun s hm => ?_⟩
  simp [start_monitoring, hm]

theorem at_most_one_poll_task_witness :
    (runOps bootState [.stop .alive, .start, .start]).active.length ≤ 1 ∧
    start_monitoring bootState =
      (bootState, .httpError ⟨400, "Monitoring is already running"⟩) :=
  ⟨at_most_one_poll_task.2.1 [.stop .alive, .start, .start],
   at_most_one_poll_task.2.2 bootState rfl⟩

/-- Claim C6: a stop issued while the running flag is false fails with the
400 not-running error and leaves the whole run state — flag and task
handle included — unchanged, whatever state the monitor task is in (the
not-running check precedes everything else). -/
theorem stop_while_not_running (ts : TaskState) (s : SysState)
    (h : s.is_monitoring = false) :
    stop_monitoring ts s = (s, .httpError ⟨400, "Monitoring is not running"⟩) := by
  simp [stop_monitoring, h]

theorem stop_while_not_running_witness :
    stop_monitoring .alive initState =
      (initState, .httpError ⟨400, "Monitoring is not running"⟩) :=
  stop_while_not_running .alive initState rfl

/-- Claim C7 (evaluation of the shipped code): the stop handler flips the
flag and would return success on a live task, but the shipped monitor
task never reaches a suspension point: its first cycle ends with the
TypeError that asyncio.sleep raises on the string POLLING_INTERVAL, so
the task has already failed when stop() awaits it, cancel() is a no-op,
the await re-raises TypeError, and except asyncio.CancelledError does
not catch it — the handler crashes instead of returning the success
result the claim requires. -/
theorem stop_surfaces_dead_task_error :
    (monitor_cycle bootState POLLING_INTERVAL (.success []) (fun _ => none)).2.2 =
      CycleEnd.raised .typeError ∧
    (stop_monitoring (.failed .typeError) bootState).2 =
      HandlerResult.crash .typeError ∧
    (stop_monitoring (.failed .typeError) bootState).1.is_monitoring = false ∧
    (stop_monitoring TaskState.alive bootState).2 =
      HandlerResult.ok [("status", "Monitoring stopped")] :=
  ⟨rfl, rfl, rfl, rfl⟩

/-- Claim C10: the startup hook runs before any request, sets the running
flag and spawns the poll-loop task, so in the initial reachable state
monitoring is already active and the first POST /start after boot fails
with the 400 already-running error. -/
theorem startup_spawns_monitor :
    bootState = startup_event initState ∧
    bootState.is_monitoring = true ∧
    bootState.monitor_task = some 0 ∧
    bootState.active = [0] ∧
    start_monitoring bootState =
      (bootState, .httpError ⟨400, "Monitoring is already running"⟩) := by
  refine ⟨rfl, rfl, rfl, rfl, ?_⟩
  simp [start_monitoring, bootState, startup_event, initState]

/-- Claim C8 (evaluation at the shipped configuration): the module value
POLLING_INTERVAL is not a number, so await asyncio.sleep(POLLING_INTERVAL)
raises TypeError; the sleep sits outside the try/except of
monitor_tickets, so the very first cycle ends with the TypeError escaping
and the poll-loop task terminating — the loop does not reach another
cycle, contrary to the claim. -/
theorem sleep_typeerror_terminates_loop :
    PyVal.isInt POLLING_INTERVAL = false ∧
    asyncio_sleep POLLING_INTERVAL = .error .typeError ∧
    (monitor_cycle bootState POLLING_INTERVAL (.success []) (fun _ => none)).2.2 =
      .raised .typeError ∧
    (monitor_cycle bootState POLLING_INTERVAL
      (.success [⟨some 1, some 2, some 1⟩]) (fun _ => none)).2.2 =
      .raised .typeError :=
  ⟨rfl, rfl, rfl, rfl⟩

/-- Claim C9 (evaluation at the shipped configuration): GET /status always
answers 200 with exactly the fields is_monitoring, last_check and
polling_interval; is_monitoring mirrors the running flag and last_check
is the query timestamp string, but polling_interval is the module value
POLLING_INTERVAL, the empty string — not an integer number of seconds,
contrary to the claim. -/
theorem get_status_shape_and_interval (s : SysState) (now_iso : String) :
    (get_status s now_iso).1 = 200 ∧
    (get_status s now_iso).2.map Prod.fst =
      ["is_monitoring", "last_check", "polling_interval"] ∧
    (get_status s now_iso).2.lookup "is_monitoring" =
      some (.bool s.is_monitoring) ∧
    (get_status s now_iso).2.lookup "last_check" = some (.str now_iso) ∧
    (get_status s now_iso).2.lookup "polling_interval" = some (.str "") ∧
    PyVal.isInt POLLING_INTERVAL = false := by
  refine ⟨rfl, rfl, ?_, ?_, ?_, rfl⟩ <;>
    simp [get_status, List.lookup, POLLING_INTERVAL]

end Freshdesk
